import Mathlib

/-!
Verification of the anomaly-detection ML service (src/server/ml_service.py).

The Python source is shallowly embedded here:
* scalar record values are modelled by `Value` (JSON null / string / finite number);
  Python floats are modelled by `ℚ` (the values flowing through these code paths are
  finite decimals; non-finite specials such as NaN/inf are outside the model);
* a record (JSON object) is an association list of field name to value;
* the external numeric library calls (isolation forest, local outlier factor,
  the standard scaler's fit on a batch, and the LIME explainer) are parameters of
  the embedded pipeline: the glue code under verification receives their outputs,
  never inspects their internals, and the spec places them out of scope;
* fallible Python code (expressions that can raise) returns `Except`/`Option`.

All embedded functions keep the source's names where Lean allows it.
-/

namespace MLService

/-- A scalar JSON value as it appears in a record field: null/None, a string,
or a finite number (Python int/float, modelled as a rational). -/
inductive Value where
  | vnull : Value
  | vstr : String → Value
  | vnum : ℚ → Value
deriving DecidableEq, Repr

/-- A raw input record: a JSON object, modelled as an association list from
field name to scalar value (first binding wins, as in a Python dict). -/
structure Record where
  fields : List (String × Value)
deriving DecidableEq, Repr

instance : Inhabited Record := ⟨⟨[]⟩⟩

/-- Python `row.get(feature)`: the field's value, or None when the key is absent.
A DataFrame row built from a dict of scalars behaves like the dict for lookup. -/
def Record.get (r : Record) (k : String) : Value :=
  (r.fields.lookup k).getD .vnull

/-- The fixed ordered feature set (`numeric_features` in `preprocess_data`,
stored as `self.feature_names`). -/
def numeric_features : List String :=
  ["taxableIncome", "salary", "revenue",
   "amountTaxable", "bubblegumTax", "confectionarySalesTaxPercent"]

/-- Python `value.replace(chr(36), "").replace(",", "")`: removing every
occurrence of the two single-character patterns is removing those characters. -/
def stripDollarComma (s : String) : String :=
  String.mk (s.data.filter (fun c => !(c == '$' || c == ',')))

/-- Value of a digit run, most significant first. -/
def digitsVal (ds : List Char) : ℕ :=
  ds.foldl (fun a c => a * 10 + (c.toNat - '0'.toNat)) 0

/-- Python `float(s)` on a decimal literal: optional surrounding whitespace,
optional sign, digits with an optional point (at least one digit), optional
exponent. Returns none where Python raises ValueError. (Python also accepts
underscore digit separators and inf/nan spellings; those inputs are outside
this model, which only feeds the parser finite decimal notations.) -/
def parseFloat? (s : String) : Option ℚ :=
  let cs := ((s.data.dropWhile Char.isWhitespace).reverse.dropWhile
      Char.isWhitespace).reverse
  let signed : Bool × List Char :=
    match cs with
    | '+' :: t => (false, t)
    | '-' :: t => (true, t)
    | t => (false, t)
  let neg := signed.1
  let cs1 := signed.2
  let ip := cs1.takeWhile Char.isDigit
  let r1 := cs1.dropWhile Char.isDigit
  let fracRest : List Char × List Char :=
    match r1 with
    | '.' :: t => (t.takeWhile Char.isDigit, t.dropWhile Char.isDigit)
    | t => ([], t)
  let fp := fracRest.1
  let r2 := fracRest.2
  if ip.isEmpty && fp.isEmpty then none
  else
    let mant : ℚ := (digitsVal ip : ℚ) + (digitsVal fp : ℚ) / (10 : ℚ) ^ fp.length
    let sgn : ℚ → ℚ := fun q => if neg then -q else q
    match r2 with
    | [] => some (sgn mant)
    | e :: t =>
      if e = 'e' || e = 'E' then
        let esigned : Bool × List Char :=
          match t with
          | '+' :: u => (false, u)
          | '-' :: u => (true, u)
          | u => (false, u)
        let ed := esigned.2.takeWhile Char.isDigit
        let erest := esigned.2.dropWhile Char.isDigit
        if ed.isEmpty || !erest.isEmpty then none
        else
          let ex : ℚ := (10 : ℚ) ^ digitsVal ed
          some (sgn (if esigned.1 then mant / ex else mant * ex))
      else none

/-- The per-value branch of `preprocess_data` (lines 54-67): None or empty
string give 0.0; strings are parsed after stripping currency characters,
with 0.0 on parse failure; numbers are cast. Total: the try/except never
lets an exception escape. -/
def normalizeValue (v : Value) : ℚ :=
  match v with
  | .vnull => 0
  | .vnum q => q
  | .vstr s =>
    if s = "" then 0
    else
      match parseFloat? (stripDollarComma s) with
      | some q => q
      | none => 0

/-- One row of the feature matrix built by `preprocess_data`: the record's
six features, normalized, in feature-set order. -/
def preprocessRecord (r : Record) : List ℚ :=
  numeric_features.map (fun f => normalizeValue (r.get f))

/-- The feature matrix `X` of `preprocess_data`: one row per record, input order. -/
def preprocess_data (data : List Record) : List (List ℚ) :=
  data.map preprocessRecord

/-- Round to the nearest integer, ties to even — the rounding used by Python's
fixed-point string formatting. -/
def roundHalfEven (q : ℚ) : ℤ :=
  let f := ⌊q⌋
  let r := q - f
  if r < 1 / 2 then f
  else if 1 / 2 < r then f + 1
  else if 2 ∣ f then f else f + 1

/-- Insert a comma after every third digit of a reversed digit list,
except at the very end. -/
def commaRevAux : List Char → ℕ → List Char
  | [], _ => []
  | [c], _ => [c]
  | c :: c' :: cs, k =>
    if k % 3 = 2 then c :: ',' :: commaRevAux (c' :: cs) (k + 1)
    else c :: commaRevAux (c' :: cs) (k + 1)

/-- Group a digit string (most significant first) with thousands separators. -/
def commaGroupDigits (ds : List Char) : List Char :=
  (commaRevAux ds.reverse 0).reverse

/-- Python format spec `,.2f` applied to a rational: fixed two decimal places,
thousands separators in the integer part. -/
def formatComma2 (q : ℚ) : String :=
  let cents := roundHalfEven (q * 100)
  let n := cents.natAbs
  let ip := n / 100
  let fr := n % 100
  let fd := Nat.toDigits 10 fr
  let fd2 := if fr < 10 then '0' :: fd else fd
  String.mk ((if cents < 0 then ['-'] else []) ++
    commaGroupDigits (Nat.toDigits 10 ip) ++ '.' :: fd2)

/-- Python format spec `.1f` applied to a rational: fixed one decimal place. -/
def formatFixed1 (q : ℚ) : String :=
  let tenths := roundHalfEven (q * 10)
  let n := tenths.natAbs
  String.mk ((if tenths < 0 then ['-'] else []) ++
    Nat.toDigits 10 (n / 10) ++ '.' :: Nat.toDigits 10 (n % 10))

/-- The `self.feature_display_names` table from `MLAnomalyDetector.__init__`. -/
def feature_display_names : List (String × String) :=
  [("taxableIncome", "Taxable Income"),
   ("salary", "Total Payroll"),
   ("revenue", "Total Revenue"),
   ("amountTaxable", "Amount Taxable"),
   ("bubblegumTax", "Bubblegum Tax"),
   ("confectionarySalesTaxPercent", "Sales Tax Rate")]

/-- The five currency-denominated features tested on line 246 of the source. -/
def currency_features : List String :=
  ["taxableIncome", "salary", "revenue", "amountTaxable", "bubblegumTax"]

/-- Result of `_generate_business_context`. -/
structure BusinessContext where
  display_name : String
  formatted_value : String
  context : String
deriving DecidableEq, Repr

/-- Python `str(value)` for a float whose rational value is integral; the
general float repr is never needed: this branch of the narrator is unreachable
for the six features of the feature set. -/
def pyFloatRepr (q : ℚ) : String :=
  if q.den = 1 then toString q.num ++ ".0" else toString q.num ++ "/" ++ toString q.den

/-- The Business Narrator `_generate_business_context` (the source name carries
a leading underscore): display-name lookup with fallback, value formatting
(currency with two decimals, tax rate as a percent with one decimal, each
replaced by the literal string "Not reported" unless the value is positive),
and the four-way contextual sentence. -/
def generate_business_context (feature_name : String) (value : ℚ)
    (contribution : ℚ) : BusinessContext :=
  let display_name := (feature_display_names.lookup feature_name).getD feature_name
  let formatted_value :=
    if feature_name ∈ currency_features then
      if value > 0 then "$" ++ formatComma2 value else "Not reported"
    else if feature_name = "confectionarySalesTaxPercent" then
      if value > 0 then formatFixed1 value ++ "%" else "Not reported"
    else pyFloatRepr value
  let context :=
    if contribution > 0 then
      if value = 0 then "Missing " ++ display_name.toLower ++ " data raises audit concerns"
      else "This " ++ display_name.toLower ++ " value contributes to anomaly detection"
    else
      if value = 0 then "Missing " ++ display_name.toLower ++ " data is consistent with some companies"
      else "This " ++ display_name.toLower ++ " value appears typical"
  ⟨display_name, formatted_value, context⟩

/-- One entry of `self.feature_stats`, the Distribution Profile computed in
`setup_lime_explainer`: mean, standard deviation, the three quartile cut
points and the seven percentile cut points. -/
structure FeatureStats where
  mean : ℚ
  std : ℚ
  q25 : ℚ
  q50 : ℚ
  q75 : ℚ
  p10 : ℚ
  p25 : ℚ
  p50 : ℚ
  p75 : ℚ
  p90 : ℚ
  p95 : ℚ
  p99 : ℚ
deriving DecidableEq, Repr

/-- Python `contrib[0].split(' ')[0] if ' ' in contrib[0] else contrib[0]`:
the token before the first space (the whole string when it has no space). -/
def baseFeature (s : String) : String :=
  String.mk (s.data.takeWhile (fun c => !(c == ' ')))

/-- The percentile branch of `_transform_feature_names` (lines 286-302):
compare against the cut points by `>=` from the 99th down, first match wins. -/
def percentileBucketName (base_feature : String) (value : ℚ) (st : FeatureStats) : String :=
  if value ≥ st.p99 then base_feature ++ " (99th percentile)"
  else if value ≥ st.p95 then base_feature ++ " (95th percentile)"
  else if value ≥ st.p90 then base_feature ++ " (90th percentile)"
  else if value ≥ st.p75 then base_feature ++ " (75th percentile)"
  else if value ≥ st.p50 then base_feature ++ " (median)"
  else if value ≥ st.p25 then base_feature ++ " (25th percentile)"
  else base_feature ++ " (bottom 25%)"

/-- The quartile branch of `_transform_feature_names` (lines 304-314). -/
def quartileBucketName (base_feature : String) (value : ℚ) (st : FeatureStats) : String :=
  if value ≥ st.q75 then base_feature ++ " (Q4 - High)"
  else if value ≥ st.q50 then base_feature ++ " (Q3 - Above Average)"
  else if value ≥ st.q25 then base_feature ++ " (Q2 - Below Average)"
  else base_feature ++ " (Q1 - Low)"

/-- The standard-deviation branch of `_transform_feature_names` (lines
316-328): zero deviations when the standard deviation is 0; the five
templates collapse to a sign-dependent pair but are kept as in the source. -/
def stdDevName (base_feature : String) (value : ℚ) (st : FeatureStats) : String :=
  let std_deviations := if st.std > 0 then (value - st.mean) / st.std else 0
  if std_deviations ≥ 2 then base_feature ++ " (+" ++ formatFixed1 std_deviations ++ " std)"
  else if std_deviations ≥ 1 then base_feature ++ " (+" ++ formatFixed1 std_deviations ++ " std)"
  else if std_deviations ≥ 0 then base_feature ++ " (+" ++ formatFixed1 std_deviations ++ " std)"
  else if std_deviations ≥ -1 then base_feature ++ " (" ++ formatFixed1 std_deviations ++ " std)"
  else base_feature ++ " (" ++ formatFixed1 std_deviations ++ " std)"

/-- The style re-labeller `_transform_feature_names` (the source name carries a
leading underscore). `stats` models `self.feature_stats`; `X_original` is
indexed at the base feature's position in the feature set. This method is
defined in the source but never invoked by any flow. -/
def transform_feature_names (stats : String → FeatureStats)
    (feature_contributions : List (String × ℚ)) (X_original : List ℚ)
    (explanation_style : String) : List (String × ℚ) :=
  feature_contributions.map (fun fc =>
    let feature_name := fc.1
    let contribution := fc.2
    let base_feature := baseFeature feature_name
    if base_feature ∈ numeric_features then
      let feature_idx := numeric_features.indexOf base_feature
      let value := X_original.getD feature_idx 0
      let st := stats base_feature
      let new_name :=
        if explanation_style = "percentiles" then percentileBucketName base_feature value st
        else if explanation_style = "quartiles" then quartileBucketName base_feature value st
        else if explanation_style = "std_dev" then stdDevName base_feature value st
        else feature_name
      (new_name, contribution)
    else (feature_name, contribution))

/-- Numpy boolean-mask row selection `m[flags == b]`. -/
def selectRows (flags : List Bool) (m : List (List ℚ)) (b : Bool) : List (List ℚ) :=
  ((flags.zip m).filter (fun p => p.1 == b)).map (fun p => p.2)

/-- Numpy `np.mean(rows, axis=0)` at column `j` (rows are width-6 in every
use; out-of-range positions read as 0). -/
def colMean (rows : List (List ℚ)) (j : ℕ) : ℚ :=
  (rows.map (fun r => r.getD j 0)).sum / rows.length

/-- The unnormalized importance vector of `calculate_feature_importance`
(line 359): per-feature absolute difference of the flagged and unflagged
column means of the scaled matrix. -/
def importanceRaw (flags : List Bool) (m : List (List ℚ)) : List ℚ :=
  (List.range numeric_features.length).map
    (fun j => |colMean (selectRows flags m true) j - colMean (selectRows flags m false) j|)

/-- `calculate_feature_importance` (lines 339-368): empty mapping when there
are no rows, no flagged rows, or no unflagged rows; otherwise the absolute
mean-difference vector, normalized by its sum when that sum is positive. -/
def calculate_feature_importance (flags : List Bool) (m : List (List ℚ)) :
    List (String × ℚ) :=
  if flags.isEmpty then []
  else if (selectRows flags m true).isEmpty then []
  else if (selectRows flags m false).isEmpty then []
  else
    let importance := importanceRaw flags m
    let s := importance.sum
    let importance := if s > 0 then importance.map (fun x => x / s) else importance
    numeric_features.zip importance

/-- Outputs of the out-of-scope numeric library for one analyze request: the
two detectors' binary flags and continuous scores (lines 402-403) and the
scaler's standardized matrix (line 78). The glue code under verification
consumes these; it never looks inside the fitted models. -/
structure DetectorOutputs where
  isoFlags : List Bool
  isoScores : List ℚ
  lofFlags : List Bool
  lofScores : List ℚ
  scaled : List (List ℚ)
deriving DecidableEq, Repr

/-- Line 409: `np.logical_or(iso_anomalies, lof_anomalies)`. -/
def combined_anomalies (dout : DetectorOutputs) : List Bool :=
  List.zipWith (fun a b => a || b) dout.isoFlags dout.lofFlags

/-- Line 410: `(np.abs(iso_scores) + np.abs(lof_scores)) / 2`. -/
def combined_scores (dout : DetectorOutputs) : List ℚ :=
  List.zipWith (fun a b => (|a| + |b|) / 2) dout.isoScores dout.lofScores

/-- One element of the `anomalies` array in the analyze response (lines
420-430), with the identity-field defaults of `record.get`. -/
structure AnomalyEntry where
  record_index : ℕ
  record_id : Value
  corp_name : Value
  corp_id : Value
  anomaly_score : ℚ
  detection_method : String
  record_data : Record
deriving DecidableEq, Repr

/-- The dict literal built at lines 422-430 for row `i`. -/
def mkEntry (i : ℕ) (record : Record) (score : ℚ) : AnomalyEntry :=
  { record_index := i
    record_id := (record.fields.lookup "id").getD (.vnum i)
    corp_name := (record.fields.lookup "corpName").getD (.vstr "Unknown")
    corp_id := (record.fields.lookup "corpId").getD (.vstr "Unknown")
    anomaly_score := score
    detection_method := "Combined (Isolation Forest + LOF)"
    record_data := record }

/-- The result-building loop at lines 419-430: walk
`zip(data, threshold_anomalies, combined_scores)` with the row index,
keeping an entry for each row whose threshold flag is set. -/
def buildResults : ℕ → List Record → List Bool → List ℚ → List AnomalyEntry
  | i, record :: data, f :: flags, s :: scores =>
    (if f then [mkEntry i record s] else []) ++ buildResults (i + 1) data flags scores
  | _, _, _, _ => []

/-- The analyze response envelope (lines 435-447). -/
structure AnalyzeResponse where
  success : Bool
  total_records : ℕ
  anomalies_detected : ℕ
  anomaly_rate : ℚ
  contamination : ℚ
  n_neighbors : ℕ
  anomaly_threshold : ℚ
  feature_importance : List (String × ℚ)
  anomalies : List AnomalyEntry
deriving DecidableEq, Repr

/-- The analyze flow from the detector outputs on (lines 408-447): combine the
two detectors' flags and scores, apply the user threshold to the combined
scores, compute the global feature importance from the OR-flags and the scaled
matrix, build the filtered result list, and sort it by score descending
(Python's stable sort with `reverse=True`). -/
def analyzeFrom (data : List Record) (dout : DetectorOutputs)
    (contamination : ℚ) (n_neighbors : ℕ) (anomaly_threshold : ℚ) : AnalyzeResponse :=
  let combinedA := combined_anomalies dout
  let combinedS := combined_scores dout
  let thresholdA := combinedS.map (fun s => decide (s > anomaly_threshold))
  let fi := calculate_feature_importance combinedA dout.scaled
  let results := (buildResults 0 data thresholdA combinedS).mergeSort
    (fun a b => decide (b.anomaly_score ≤ a.anomaly_score))
  { success := true
    total_records := data.length
    anomalies_detected := results.length
    anomaly_rate := if data.length > 0 then (results.length : ℚ) / data.length else 0
    contamination := contamination
    n_neighbors := n_neighbors
    anomaly_threshold := anomaly_threshold
    feature_importance := fi
    anomalies := results }

/-- The whole analyze command flow (lines 378-447). `detect` stands for the
out-of-scope numeric library run: it receives the normalized feature matrix
and the two detector tuning parameters — and, deliberately, not the
`anomaly_threshold`, which the source first reads at line 413, after both
detectors have run. Input is capped at the first 100 records before anything
else (lines 390-392). -/
def analyzeMain (detect : List (List ℚ) → ℚ → ℕ → DetectorOutputs)
    (data0 : List Record) (contamination : ℚ) (n_neighbors : ℕ)
    (anomaly_threshold : ℚ) : AnalyzeResponse :=
  let data := if data0.length > 100 then data0.take 100 else data0
  let X := preprocess_data data
  analyzeFrom data (detect X contamination n_neighbors) contamination n_neighbors
    anomaly_threshold

/-- One element of `feature_contributions` in an explanation (lines 213-220). -/
structure ExplanationEntry where
  feature : String
  display_name : String
  formatted_value : String
  contribution : ℚ
  context : String
  raw_value : ℚ
deriving DecidableEq, Repr

/-- The `explanation_data` dict (lines 226-237). -/
structure Explanation where
  record_index : ℕ
  anomaly_score : ℚ
  prob_normal : ℚ
  prob_anomaly : ℚ
  feature_contributions : List ExplanationEntry
  feature_values : List (String × ℚ)
deriving DecidableEq, Repr

/-- The body of `explain_anomaly` after the data point has been re-parsed
(lines 180-239). `explainOut b` stands for the out-of-scope surrogate
explainer's `explain_instance(...).as_list()` under configuration `b`
(`true` = the discretizing `self.lime_explainer`, `false` = the continuous
`self.lime_explainer_raw`); it depends on the data point and the predictor but
not on `explanation_style`, whose only read in the source is the explainer
choice at lines 181-184. `predictProbs` stands for `anomaly_predictor` — the
logistic transform of the external detector's decision score. -/
def explain_anomaly (explainOut : Bool → List (String × ℚ))
    (predictProbs : List ℚ → ℚ × ℚ) (X_original : List ℚ)
    (record_index : ℕ) (anomaly_score : ℚ) (explanation_style : String) : Explanation :=
  let discretized := !(explanation_style == "raw")
  let feature_contributions := explainOut discretized
  let probabilities := predictProbs X_original
  let processed := feature_contributions.filterMap (fun contrib =>
    let base_feature := baseFeature contrib.1
    if base_feature ∈ numeric_features then
      let feature_idx := numeric_features.indexOf base_feature
      let value := X_original.getD feature_idx 0
      let contribution := contrib.2
      let ctx := generate_business_context base_feature value contribution
      some ({ feature := base_feature
              display_name := ctx.display_name
              formatted_value := ctx.formatted_value
              contribution := contribution
              context := ctx.context
              raw_value := value } : ExplanationEntry)
    else none)
  let sorted := processed.mergeSort
    (fun a b => decide (|b.contribution| ≤ |a.contribution|))
  { record_index := record_index
    anomaly_score := anomaly_score
    prob_normal := probabilities.1
    prob_anomaly := probabilities.2
    feature_contributions := sorted
    feature_values := numeric_features.mapIdx (fun i f => (f, X_original.getD i 0)) }

/-- The re-parse of one raw field value at line 160:
`float(str(x).replace(chr(36), "").replace(",", "")) if x is not None else 0.0`.
Unlike the Value Normalizer there is no try/except here: a string that does
not parse raises ValueError, modelled as the error case. `str` of a string is
itself and `float(str(x))` round-trips a finite number. -/
def reparseValue (v : Value) : Except String ℚ :=
  match v with
  | .vnull => .ok 0
  | .vnum q => .ok q
  | .vstr s =>
    match parseFloat? (stripDollarComma s) with
    | some q => .ok q
    | none => .error ("could not convert string to float: " ++ s)

/-- Line 159-160: re-parse the selected record's six raw feature values; the
first failing field aborts the whole explanation. -/
def reparseRecord (r : Record) : Except String (List ℚ) :=
  numeric_features.mapM (fun f => reparseValue (r.get f))

/-- The explain command's response envelope (lines 481-496): a success body
with the explanation, or `success: false` with the caught exception's message. -/
structure ExplainEnvelope where
  success : Bool
  error : Option String
  explanation : Option Explanation
deriving DecidableEq, Repr

/-- The explain command flow (lines 457-496). `preprocess_data` runs first and
never fails; the detector fit and explainer setup are external; the body of
`explain_anomaly` runs on the re-parsed data point, and any raised exception
(an out-of-range index at `iloc`, a failed float re-parse) is caught at lines
492-496 and reported as a failure envelope. -/
def explainMain (explainOut : Bool → List (String × ℚ))
    (predictProbs : List ℚ → ℚ × ℚ) (data : List Record) (record_index : ℕ)
    (anomaly_score : ℚ) (explanation_style : String) : ExplainEnvelope :=
  let _X := preprocess_data data
  match data[record_index]? with
  | none =>
    { success := false
      error := some "single positional indexer is out-of-bounds"
      explanation := none }
  | some r =>
    match reparseRecord r with
    | .error msg => { success := false, error := some msg, explanation := none }
    | .ok X_original =>
      { success := true
        error := none
        explanation := some (explain_anomaly explainOut predictProbs X_original
          record_index anomaly_score explanation_style) }

/-! Shared helper lemmas. -/

/-- A string starting with the dollar sign is not the "Not reported" literal. -/
lemma dollar_append_ne_not_reported (s : String) : "$" ++ s ≠ "Not reported" := by
  intro h
  have h2 := congrArg String.data h
  rw [String.data_append] at h2
  simp at h2

/-- A string ending with the percent sign is not the "Not reported" literal. -/
lemma append_pct_ne_not_reported (s : String) : s ++ "%" ≠ "Not reported" := by
  intro h
  have h2 := congrArg (fun t => t.data.getLast?) h
  simp [String.data_append] at h2

/-- Dividing a list termwise by a constant divides its sum. -/
lemma sum_map_div (l : List ℚ) (c : ℚ) :
    (l.map (fun x => x / c)).sum = l.sum / c := by
  induction l with
  | nil => simp
  | cons a l ih => simp [ih, add_div]

/-- Membership in the result-building loop: an entry is produced exactly for
the rows (within the common prefix of the three lists) whose flag is set. -/
lemma mem_buildResults {e : AnomalyEntry} :
    ∀ (k : ℕ) (data : List Record) (flags : List Bool) (scores : List ℚ),
    e ∈ buildResults k data flags scores ↔
      ∃ j r s, data[j]? = some r ∧ flags[j]? = some true ∧ scores[j]? = some s ∧
        e = mkEntry (k + j) r s := by
  intro k data
  induction data generalizing k with
  | nil =>
    intro flags scores
    simp [buildResults]
  | cons rcd data ih =>
    intro flags scores
    match flags, scores with
    | [], _ => simp [buildResults]
    | _ :: _, [] => simp [buildResults]
    | f :: flags, s :: scores =>
      simp only [buildResults, List.mem_append]
      constructor
      · intro h
        rcases h with h | h
        · refine ⟨0, rcd, s, by simp, ?_, by simp, ?_⟩
          · cases f with
            | false => simp at h
            | true => simp
          · cases f with
            | false => simp at h
            | true => simpa using h
        · rcases (ih (k + 1) flags scores).mp h with ⟨j, r', s', h1, h2, h3, h4⟩
          exact ⟨j + 1, r', s', by simpa using h1, by simpa using h2,
            by simpa using h3, by rw [h4]; congr 1; omega⟩
      · rintro ⟨j, r', s', h1, h2, h3, h4⟩
        match j with
        | 0 =>
          left
          simp at h1 h2 h3
          subst h1 h2 h3
          simp [h4]
        | j + 1 =>
          right
          simp at h1 h2 h3
          exact (ih (k + 1) flags scores).mpr
            ⟨j, r', s', h1, h2, h3, by rw [h4]; congr 1; omega⟩

/-! Claim theorems. -/

/-- C5: for every raw record the Value Normalizer returns exactly six
rationals, in feature-set order (first conjunct lists them explicitly); the
currency string parses after stripping its currency characters; None, the
empty string, and any unparseable string normalize to 0. The normalizer is a
total function: the source's try/except never lets an exception escape. -/
theorem C5_value_normalizer :
    (∀ r : Record, preprocessRecord r =
      [normalizeValue (r.get "taxableIncome"), normalizeValue (r.get "salary"),
       normalizeValue (r.get "revenue"), normalizeValue (r.get "amountTaxable"),
       normalizeValue (r.get "bubblegumTax"),
       normalizeValue (r.get "confectionarySalesTaxPercent")]) ∧
    (∀ r : Record, (preprocessRecord r).length = 6) ∧
    normalizeValue (.vstr "$1,234.56") = 123456 / 100 ∧
    normalizeValue .vnull = 0 ∧
    normalizeValue (.vstr "") = 0 ∧
    (∀ s : String, parseFloat? (stripDollarComma s) = none →
      normalizeValue (.vstr s) = 0) := by
  refine ⟨fun r => rfl, fun r => rfl, by with_unfolding_all rfl, rfl, rfl, ?_⟩
  intro s h
  by_cases hs : s = ""
  · simp [normalizeValue, hs]
  · simp [normalizeValue, hs, h]

/-- Witness for C5 at the unparseable string "abc". -/
theorem C5_value_normalizer_witness :
    parseFloat? (stripDollarComma "abc") = none ∧
    normalizeValue (.vstr "abc") = 0 :=
  ⟨by with_unfolding_all rfl,
   C5_value_normalizer.2.2.2.2.2 "abc" (by with_unfolding_all rfl)⟩

/-- C6 counterexample: a negative salary also formats as "Not reported", so
"Not reported" does not happen only at the exact value 0 as claimed. A
negative value is reachable: the normalizer parses negative decimals. -/
theorem C6_counterexample :
    (generate_business_context "salary" (-100) (1 / 5)).formatted_value =
      "Not reported" ∧
    ((-100 : ℚ) ≠ 0) ∧
    normalizeValue (.vstr "-100") = -100 := by
  refine ⟨by with_unfolding_all rfl, by norm_num, by with_unfolding_all rfl⟩

/-- C6 amended: the five currency features format as a dollar sign plus the
comma-grouped two-decimal value, and the tax-rate feature as a one-decimal
percentage, when the value is strictly positive; the literal "Not reported"
appears if and only if the value is not positive (zero or negative). -/
theorem C6_business_narrator_amended :
    ∀ (f : String) (v c : ℚ),
    (f ∈ currency_features →
      (((generate_business_context f v c).formatted_value = "Not reported" ↔
        ¬v > 0) ∧
      (v > 0 → (generate_business_context f v c).formatted_value =
        "$" ++ formatComma2 v))) ∧
    (((generate_business_context "confectionarySalesTaxPercent" v
        c).formatted_value = "Not reported" ↔ ¬v > 0) ∧
      (v > 0 → (generate_business_context "confectionarySalesTaxPercent" v
        c).formatted_value = formatFixed1 v ++ "%")) := by
  intro f v c
  have hnc : "confectionarySalesTaxPercent" ∉ currency_features := by decide
  have hcur : ∀ hf : f ∈ currency_features,
      (generate_business_context f v c).formatted_value =
        if v > 0 then "$" ++ formatComma2 v else "Not reported" := by
    intro hf
    simp only [generate_business_context, if_pos hf]
  have hpct : (generate_business_context "confectionarySalesTaxPercent" v
      c).formatted_value =
      if v > 0 then formatFixed1 v ++ "%" else "Not reported" := by
    simp only [generate_business_context, if_neg hnc, if_pos rfl, if_true]
  constructor
  · intro hf
    rw [hcur hf]
    by_cases hv : v > 0
    · rw [if_pos hv]
      exact ⟨⟨fun h => absurd h (dollar_append_ne_not_reported _),
        fun h => absurd hv h⟩, fun _ => rfl⟩
    · rw [if_neg hv]
      exact ⟨⟨fun _ => hv, fun _ => rfl⟩, fun h => absurd h hv⟩
  · rw [hpct]
    by_cases hv : v > 0
    · rw [if_pos hv]
      exact ⟨⟨fun h => absurd h (append_pct_ne_not_reported _),
        fun h => absurd hv h⟩, fun _ => rfl⟩
    · rw [if_neg hv]
      exact ⟨⟨fun _ => hv, fun _ => rfl⟩, fun h => absurd h hv⟩

/-- Witness for the amended C6 at salary 1234.5 (which formats as $1,234.50)
and tax rate 7.5 (which formats as 7.5%). -/
theorem C6_business_narrator_amended_witness :
    ("salary" ∈ currency_features) ∧ ((2469 / 2 : ℚ) > 0) ∧
    (generate_business_context "salary" (2469 / 2) 1).formatted_value =
      "$" ++ formatComma2 (2469 / 2) ∧
    (generate_business_context "confectionarySalesTaxPercent" (15 / 2)
      1).formatted_value = formatFixed1 (15 / 2) ++ "%" :=
  ⟨by decide, by norm_num,
   ((C6_business_narrator_amended "salary" (2469 / 2) 1).1 (by decide)).2
     (by norm_num),
   ((C6_business_narrator_amended "salary" (15 / 2) 1).2).2 (by norm_num)⟩

/-- C9: the explain flow re-parses the selected record's raw fields with no
parse-failure fallback. A record whose salary is the empty string (or the
unparseable string "N/A") is silently normalized to 0.0 by analyze's Value
Normalizer, but makes the explain flow raise, which the dispatcher reports as
a failure envelope. -/
theorem C9_explain_reparse_no_fallback :
    preprocessRecord ⟨[("salary", .vstr "")]⟩ = [0, 0, 0, 0, 0, 0] ∧
    explainMain (fun _ => []) (fun _ => (3 / 10, 7 / 10))
      [⟨[("salary", .vstr "")]⟩] 0 (1 / 2) "thresholds" =
      { success := false
        error := some "could not convert string to float: "
        explanation := none } ∧
    preprocessRecord ⟨[("salary", .vstr "N/A")]⟩ = [0, 0, 0, 0, 0, 0] ∧
    (explainMain (fun _ => []) (fun _ => (3 / 10, 7 / 10))
      [⟨[("salary", .vstr "N/A")]⟩] 0 (1 / 2) "thresholds").success = false := by
  refine ⟨by with_unfolding_all rfl, by with_unfolding_all rfl,
    by with_unfolding_all rfl, by with_unfolding_all rfl⟩

/-- C2 counterexample: under style "percentiles" the returned explanation is
byte-identical to the "thresholds" one and its attributed feature keeps the
bare name "salary" — no percentile qualifier is attached — even though the
source's own (never invoked) re-labeller would have attached one for this
profile. -/
theorem C2_counterexample :
    explain_anomaly
        (fun b => if b then [("salary <= 3.2", 1 / 2)] else [("salary", 1 / 2)])
        (fun _ => (3 / 10, 7 / 10)) [0, 0, 0, 0, 0, 0] 0 (1 / 2) "percentiles" =
      explain_anomaly
        (fun b => if b then [("salary <= 3.2", 1 / 2)] else [("salary", 1 / 2)])
        (fun _ => (3 / 10, 7 / 10)) [0, 0, 0, 0, 0, 0] 0 (1 / 2) "thresholds" ∧
    (explain_anomaly
        (fun b => if b then [("salary <= 3.2", 1 / 2)] else [("salary", 1 / 2)])
        (fun _ => (3 / 10, 7 / 10)) [0, 0, 0, 0, 0, 0] 0 (1 / 2)
        "percentiles").feature_contributions.map (fun e => e.feature) =
      ["salary"] ∧
    transform_feature_names (fun _ => ⟨0, 0, 0, 0, 0, 0, 0, 0, 0, 0, 0, 0⟩)
        [("salary <= 3.2", 1 / 2)] [0, 0, 0, 0, 0, 0] "percentiles" =
      [("salary (99th percentile)", 1 / 2)] ∧
    "salary" ≠ "salary (99th percentile)" := by
  refine ⟨by with_unfolding_all rfl, by with_unfolding_all rfl,
    by with_unfolding_all rfl, by decide⟩

/-- C2 amended: explanation styles other than "raw" do not re-label the
attributed features at all — `explain_anomaly`, and with it the whole explain
flow, returns output identical to the default "thresholds" style (the
re-labeller `_transform_feature_names` exists in the source but is never
invoked). The style's only effect is selecting the discretizing versus
continuous explainer configuration at lines 181-184; the detector and the
scaler feeding `predictProbs`, `explainOut`, and the data point do not depend
on the style. -/
theorem C2_explanation_styles_amended :
    (∀ (explainOut : Bool → List (String × ℚ)) (predictProbs : List ℚ → ℚ × ℚ)
      (X_original : List ℚ) (i : ℕ) (score : ℚ) (style : String),
      style ≠ "raw" →
      explain_anomaly explainOut predictProbs X_original i score style =
        explain_anomaly explainOut predictProbs X_original i score "thresholds") ∧
    (∀ (explainOut : Bool → List (String × ℚ)) (predictProbs : List ℚ → ℚ × ℚ)
      (data : List Record) (i : ℕ) (score : ℚ) (style : String),
      style ≠ "raw" →
      explainMain explainOut predictProbs data i score style =
        explainMain explainOut predictProbs data i score "thresholds") := by
  have key : ∀ (explainOut : Bool → List (String × ℚ))
      (predictProbs : List ℚ → ℚ × ℚ) (X : List ℚ) (i : ℕ) (score : ℚ)
      (style : String), style ≠ "raw" →
      explain_anomaly explainOut predictProbs X i score style =
        explain_anomaly explainOut predictProbs X i score "thresholds" := by
    intro explainOut predictProbs X i score style h
    have hb : (style == "raw") = false := by
      simp [beq_iff_eq]
      exact h
    simp [explain_anomaly, hb]
  refine ⟨key, ?_⟩
  intro explainOut predictProbs data i score style h
  have key2 : ∀ X : List ℚ,
      explain_anomaly explainOut predictProbs X i score style =
        explain_anomaly explainOut predictProbs X i score "thresholds" :=
    fun X => key explainOut predictProbs X i score style h
  unfold explainMain
  simp only [key2]

/-- Witness for the amended C2 at the style "percentiles" on a concrete
request. -/
theorem C2_explanation_styles_amended_witness :
    ("percentiles" ≠ "raw") ∧
    explainMain (fun b => if b then [("salary <= 3.2", 1 / 2)] else [])
        (fun _ => (3 / 10, 7 / 10)) [⟨[("salary", .vnum 5)]⟩] 0 (1 / 2)
        "percentiles" =
      explainMain (fun b => if b then [("salary <= 3.2", 1 / 2)] else [])
        (fun _ => (3 / 10, 7 / 10)) [⟨[("salary", .vnum 5)]⟩] 0 (1 / 2)
        "thresholds" :=
  ⟨by decide,
   C2_explanation_styles_amended.2 _ _ _ 0 (1 / 2) "percentiles" (by decide)⟩

/-- C3: two analyze requests on the same data differing only in the
anomaly_threshold parameter produce identical feature_importance — the
importance is computed from the detector OR-flags and the scaled matrix, both
produced before the threshold is ever read — while the anomalies lists can
differ (second conjunct: a concrete pair of thresholds on the same data where
they do). -/
theorem C3_threshold_independence :
    (∀ (detect : List (List ℚ) → ℚ → ℕ → DetectorOutputs) (data : List Record)
      (contamination : ℚ) (n_neighbors : ℕ) (t1 t2 : ℚ),
      (analyzeMain detect data contamination n_neighbors t1).feature_importance =
        (analyzeMain detect data contamination n_neighbors t2).feature_importance) ∧
    (analyzeMain
        (fun _ _ _ =>
          { isoFlags := [true, false], isoScores := [2, 0]
            lofFlags := [false, false], lofScores := [4, 0]
            scaled := [[1, 0, 0, 0, 0, 0], [0, 0, 0, 0, 0, 0]] })
        [⟨[]⟩, ⟨[]⟩] (1 / 10) 20 (-1)).anomalies ≠
      (analyzeMain
        (fun _ _ _ =>
          { isoFlags := [true, false], isoScores := [2, 0]
            lofFlags := [false, false], lofScores := [4, 0]
            scaled := [[1, 0, 0, 0, 0, 0], [0, 0, 0, 0, 0, 0]] })
        [⟨[]⟩, ⟨[]⟩] (1 / 10) 20 (1 / 2)).anomalies := by
  refine ⟨fun detect data c n t1 t2 => rfl, by with_unfolding_all decide⟩

/-- C7 counterexample: with a degenerate Distribution Profile whose percentile
cut points coincide (as produced by a constant feature column, for example a
field missing from every record), a value exactly equal to the 95th-percentile
cut point is labelled "(99th percentile)", not "(95th percentile)". -/
theorem C7_counterexample :
    (⟨0, 0, 0, 0, 0, 0, 0, 0, 0, 0, 0, 0⟩ : FeatureStats).p95 = 0 ∧
    transform_feature_names (fun _ => ⟨0, 0, 0, 0, 0, 0, 0, 0, 0, 0, 0, 0⟩)
        [("salary", 1)] [0, 0, 0, 0, 0, 0] "percentiles" =
      [("salary (99th percentile)", 1)] ∧
    "salary (99th percentile)" ≠ "salary (95th percentile)" := by
  refine ⟨rfl, by with_unfolding_all rfl, by decide⟩

/-- The percentile branch labels the exact 95th-percentile cut point with the
95th band whenever that cut point is strictly below the 99th one. -/
lemma percentileBucketName_at_p95 (b : String) (st : FeatureStats)
    (h : st.p95 < st.p99) :
    percentileBucketName b st.p95 st = b ++ " (95th percentile)" := by
  unfold percentileBucketName
  rw [if_neg (not_le.mpr h), if_pos le_rfl]

/-- C7 amended: under the percentile explanation style, a value exactly equal
to the profile's p95 cut point is labelled "95th percentile" provided p95 is
strictly below p99 (first matching band wins among the descending >=
comparisons); when the two cut points coincide the 99th band wins instead. -/
theorem C7_percentile_bucketing_amended :
    ∀ (f : String) (c : ℚ) (stats : String → FeatureStats) (X : List ℚ),
    f ∈ numeric_features →
    X.getD (numeric_features.indexOf f) 0 = (stats f).p95 →
    (stats f).p95 < (stats f).p99 →
    transform_feature_names stats [(f, c)] X "percentiles" =
      [(f ++ " (95th percentile)", c)] := by
  intro f c stats X hf hX h
  have hbase : baseFeature f = f := by
    fin_cases hf <;> decide
  simp only [transform_feature_names, List.map, hbase, if_pos hf]
  rw [hX, percentileBucketName_at_p95 f (stats f) h]
  simp

/-- Witness for the amended C7: salary's profile has p95 = 5 and p99 = 9 and
the data point sits exactly at 5. -/
theorem C7_percentile_bucketing_amended_witness :
    ("salary" ∈ numeric_features) ∧
    ([0, 5, 0, 0, 0, 0].getD (numeric_features.indexOf "salary") 0 =
      ((fun _ : String => (⟨0, 1, 0, 0, 0, 0, 0, 0, 0, 0, 5, 9⟩ : FeatureStats))
        "salary").p95) ∧
    transform_feature_names
        (fun _ => ⟨0, 1, 0, 0, 0, 0, 0, 0, 0, 0, 5, 9⟩) [("salary", 1)]
        [0, 5, 0, 0, 0, 0] "percentiles" =
      [("salary (95th percentile)", 1)] :=
  ⟨by decide, by with_unfolding_all rfl,
   C7_percentile_bucketing_amended "salary" 1 _ _ (by decide)
     (by with_unfolding_all rfl) (by norm_num)⟩

/-- Reading a zipWith list at a position inside both operands. -/
lemma getD_zipWith {α β γ : Type} (f : α → β → γ) (a : List α) (b : List β)
    (i : ℕ) (da : α) (db : β) (dc : γ) (ha : i < a.length) (hb : i < b.length) :
    (List.zipWith f a b).getD i dc = f (a.getD i da) (b.getD i db) := by
  simp [List.getD_eq_getElem?_getD, List.getElem?_zipWith,
    List.getElem?_eq_getElem, ha, hb]

/-- C1: per row, the combined flag is the OR of the two detector flags, the
combined score is the mean of the two absolute score magnitudes, and the row
contributes an entry to the response's anomalies list exactly when its
combined score strictly exceeds the threshold — for any detector flags
whatsoever, so membership is independent of the OR-flag. -/
theorem C1_ensemble_combination :
    ∀ (data : List Record) (dout : DetectorOutputs) (contamination : ℚ)
      (n_neighbors : ℕ) (t : ℚ) (i : ℕ),
      dout.isoFlags.length = data.length →
      dout.lofFlags.length = data.length →
      dout.isoScores.length = data.length →
      dout.lofScores.length = data.length →
      i < data.length →
      ((combined_anomalies dout).getD i false =
        (dout.isoFlags.getD i false || dout.lofFlags.getD i false) ∧
      (combined_scores dout).getD i 0 =
        (|dout.isoScores.getD i 0| + |dout.lofScores.getD i 0|) / 2 ∧
      ((∃ e ∈ (analyzeFrom data dout contamination n_neighbors t).anomalies,
          e.record_index = i) ↔ (combined_scores dout).getD i 0 > t)) := by
  intro data dout c n t i hIF hLF hIS hLS hi
  have hCSlen : (combined_scores dout).length = data.length := by
    simp [combined_scores, hIS, hLS]
  have hCS : (combined_scores dout)[i]? = some ((combined_scores dout).getD i 0) := by
    rw [List.getD_eq_getElem?_getD, List.getElem?_eq_getElem (by omega)]
    rfl
  refine ⟨getD_zipWith _ _ _ i false false false (by omega) (by omega),
    getD_zipWith _ _ _ i 0 0 0 (by omega) (by omega), ?_⟩
  have hanom : (analyzeFrom data dout c n t).anomalies =
      (buildResults 0 data
        ((combined_scores dout).map (fun s => decide (s > t)))
        (combined_scores dout)).mergeSort
        (fun a b => decide (b.anomaly_score ≤ a.anomaly_score)) := rfl
  constructor
  · rintro ⟨e, he, hei⟩
    rw [hanom, List.mem_mergeSort] at he
    obtain ⟨j, r, s, h1, h2, h3, h4⟩ := (mem_buildResults 0 data _ _).mp he
    have hji : j = i := by
      subst h4
      have h5 : 0 + j = i := hei
      omega
    subst hji
    rw [List.getElem?_map, h3] at h2
    have h2' : some (decide (s > t)) = some true := h2
    have := Option.some.inj h2'
    rw [hCS] at h3
    have hs := Option.some.inj h3
    rw [hs]
    exact of_decide_eq_true this
  · intro hgt
    have hD : data[i]? = some data[i] := List.getElem?_eq_getElem hi
    have hT : ((combined_scores dout).map (fun s => decide (s > t)))[i]? =
        some true := by
      rw [List.getElem?_map, hCS]
      exact congrArg some (decide_eq_true hgt)
    refine ⟨mkEntry (0 + i) data[i] ((combined_scores dout).getD i 0), ?_,
      show 0 + i = i by omega⟩
    rw [hanom, List.mem_mergeSort]
    exact (mem_buildResults 0 data _ _).mpr ⟨i, data[i], _, hD, hT, hCS, rfl⟩

/-- Witness for C1: a two-row request whose first row clears the threshold. -/
theorem C1_ensemble_combination_witness :
    ((DetectorOutputs.mk [true, false] [2, 0] [false, false] [4, 0]
        [[1, 0, 0, 0, 0, 0], [0, 0, 0, 0, 0, 0]]).isoFlags.length =
      ([⟨[]⟩, ⟨[]⟩] : List Record).length) ∧
    ((combined_anomalies
        (DetectorOutputs.mk [true, false] [2, 0] [false, false] [4, 0]
          [[1, 0, 0, 0, 0, 0], [0, 0, 0, 0, 0, 0]])).getD 0 false = true ∧
      (combined_scores
        (DetectorOutputs.mk [true, false] [2, 0] [false, false] [4, 0]
          [[1, 0, 0, 0, 0, 0], [0, 0, 0, 0, 0, 0]])).getD 0 0 = 3 ∧
      ((∃ e ∈ (analyzeFrom [⟨[]⟩, ⟨[]⟩]
          (DetectorOutputs.mk [true, false] [2, 0] [false, false] [4, 0]
            [[1, 0, 0, 0, 0, 0], [0, 0, 0, 0, 0, 0]]) (1 / 10) 20
          (1 / 2)).anomalies, e.record_index = 0) ↔
        (combined_scores
          (DetectorOutputs.mk [true, false] [2, 0] [false, false] [4, 0]
            [[1, 0, 0, 0, 0, 0], [0, 0, 0, 0, 0, 0]])).getD 0 0 > 1 / 2)) := by
  refine ⟨rfl, ?_⟩
  have h := C1_ensemble_combination [⟨[]⟩, ⟨[]⟩]
    (DetectorOutputs.mk [true, false] [2, 0] [false, false] [4, 0]
      [[1, 0, 0, 0, 0, 0], [0, 0, 0, 0, 0, 0]]) (1 / 10) 20 (1 / 2) 0
    rfl rfl rfl rfl (by norm_num)
  refine ⟨by with_unfolding_all rfl, by with_unfolding_all rfl, h.2.2⟩

/-- C4 counterexample: a request with two OR-flagged and two unflagged rows
whose flagged and unflagged column means coincide. The raw importance vector
is all zeros, its sum is 0, the normalization at lines 362-363 is skipped, and
the returned mapping's weights sum to 0, not 1. (The scaled matrix used here
is what the standard scaler produces on a column of raw values 0, 2, 0, 2
with the other five features constant.) -/
theorem C4_counterexample :
    selectRows [true, true, false, false]
      [[-1, 0, 0, 0, 0, 0], [1, 0, 0, 0, 0, 0], [-1, 0, 0, 0, 0, 0],
       [1, 0, 0, 0, 0, 0]] true ≠ [] ∧
    selectRows [true, true, false, false]
      [[-1, 0, 0, 0, 0, 0], [1, 0, 0, 0, 0, 0], [-1, 0, 0, 0, 0, 0],
       [1, 0, 0, 0, 0, 0]] false ≠ [] ∧
    ((calculate_feature_importance [true, true, false, false]
      [[-1, 0, 0, 0, 0, 0], [1, 0, 0, 0, 0, 0], [-1, 0, 0, 0, 0, 0],
       [1, 0, 0, 0, 0, 0]]).map (fun p => p.2)).sum = 0 := by
  refine ⟨by with_unfolding_all decide, by with_unfolding_all decide,
    by with_unfolding_all rfl⟩

/-- C4 amended: with at least one flagged row, at least one unflagged row,
and a positive raw importance sum, the feature-importance weights are
non-negative and sum exactly to 1; with zero flagged rows or zero unflagged
rows the mapping is empty. (When both row classes exist but the raw
importance sum is 0, the code skips normalization and returns all-zero
weights — the case the counterexample exhibits.) -/
theorem C4_feature_importance_amended :
    (∀ (flags : List Bool) (m : List (List ℚ)),
      selectRows flags m true ≠ [] → selectRows flags m false ≠ [] →
      0 < (importanceRaw flags m).sum →
      (∀ p ∈ calculate_feature_importance flags m, 0 ≤ p.2) ∧
      ((calculate_feature_importance flags m).map (fun p => p.2)).sum = 1) ∧
    (∀ (flags : List Bool) (m : List (List ℚ)),
      selectRows flags m true = [] → calculate_feature_importance flags m = []) ∧
    (∀ (flags : List Bool) (m : List (List ℚ)),
      selectRows flags m false = [] →
        calculate_feature_importance flags m = []) := by
  refine ⟨?_, ?_, ?_⟩
  · intro flags m hA hN hs
    have hflags : flags ≠ [] := by
      intro h
      subst h
      exact hA rfl
    have hcalc : calculate_feature_importance flags m =
        numeric_features.zip ((importanceRaw flags m).map
          (fun x => x / (importanceRaw flags m).sum)) := by
      simp only [calculate_feature_importance]
      rw [if_neg (by simpa [List.isEmpty_iff] using hflags),
        if_neg (by simpa [List.isEmpty_iff] using hA),
        if_neg (by simpa [List.isEmpty_iff] using hN),
        if_pos hs]
    have hlenRaw : (importanceRaw flags m).length = numeric_features.length := by
      simp [importanceRaw]
    constructor
    · intro p hp
      rw [hcalc] at hp
      have h2 := (List.of_mem_zip hp).2
      obtain ⟨y, hy, hyp⟩ := List.mem_map.mp h2
      obtain ⟨j, _, hj⟩ := List.mem_map.mp hy
      rw [← hyp, ← hj]
      exact div_nonneg (abs_nonneg _) hs.le
    · rw [hcalc, List.map_snd_zip _ _ (by simp [hlenRaw]), sum_map_div,
        div_self (ne_of_gt hs)]
  · intro flags m hA
    simp only [calculate_feature_importance, hA]
    by_cases hflags : flags.isEmpty <;> simp [hflags]
  · intro flags m hN
    simp only [calculate_feature_importance, hN]
    by_cases hflags : flags.isEmpty <;> simp [hflags]

/-- Witness for the amended C4: one flagged and one unflagged row with a
nonzero column-mean gap gives non-negative weights summing to 1. -/
theorem C4_feature_importance_amended_witness :
    (selectRows [true, false] [[1, 0, 0, 0, 0, 0], [0, 0, 0, 0, 0, 0]] true ≠ []) ∧
    (selectRows [true, false] [[1, 0, 0, 0, 0, 0], [0, 0, 0, 0, 0, 0]] false ≠ []) ∧
    (0 < (importanceRaw [true, false]
      [[1, 0, 0, 0, 0, 0], [0, 0, 0, 0, 0, 0]]).sum) ∧
    ((calculate_feature_importance [true, false]
      [[1, 0, 0, 0, 0, 0], [0, 0, 0, 0, 0, 0]]).map (fun p => p.2)).sum = 1 :=
  ⟨by with_unfolding_all decide, by with_unfolding_all decide,
   by with_unfolding_all decide,
   (C4_feature_importance_amended.1 [true, false]
     [[1, 0, 0, 0, 0, 0], [0, 0, 0, 0, 0, 0]]
     (by with_unfolding_all decide) (by with_unfolding_all decide)
     (by with_unfolding_all decide)).2⟩

/-- C8: an analyze request with more than 100 records processes exactly the
first 100 in input order (the whole response equals the response on
`data.take 100`), reports total_records = 100, and reports an anomaly rate
equal to anomalies_detected / total_records. -/
theorem C8_resource_bound :
    ∀ (detect : List (List ℚ) → ℚ → ℕ → DetectorOutputs) (data : List Record)
      (contamination : ℚ) (n_neighbors : ℕ) (t : ℚ),
      100 < data.length →
      ((analyzeMain detect data contamination n_neighbors t).total_records = 100 ∧
      analyzeMain detect data contamination n_neighbors t =
        analyzeMain detect (data.take 100) contamination n_neighbors t ∧
      (analyzeMain detect data contamination n_neighbors t).anomaly_rate =
        ((analyzeMain detect data contamination n_neighbors
          t).anomalies_detected : ℚ) /
        ((analyzeMain detect data contamination n_neighbors
          t).total_records : ℚ)) := by
  intro detect data c n t h
  have hlen : (data.take 100).length = 100 := by
    simp [List.length_take]
    omega
  have hif : (if data.length > 100 then data.take 100 else data) =
      data.take 100 := if_pos h
  have hif2 : (if (data.take 100).length > 100 then (data.take 100).take 100
      else data.take 100) = data.take 100 := by
    rw [if_neg]
    rw [hlen]
    omega
  have hmain : analyzeMain detect data c n t =
      analyzeFrom (data.take 100) (detect (preprocess_data (data.take 100)) c n)
        c n t := by
    simp only [analyzeMain, hif]
  have hmain2 : analyzeMain detect (data.take 100) c n t =
      analyzeFrom (data.take 100) (detect (preprocess_data (data.take 100)) c n)
        c n t := by
    simp only [analyzeMain, hif2]
  refine ⟨?_, by rw [hmain, hmain2], ?_⟩
  · rw [hmain]
    exact hlen
  · rw [hmain]
    simp only [analyzeFrom]
    rw [hlen]
    norm_num

/-- Witness for C8 on a concrete 101-record request. -/
theorem C8_resource_bound_witness :
    (100 < (List.replicate 101 (⟨[]⟩ : Record)).length) ∧
    (analyzeMain (fun _ _ _ => ⟨[], [], [], [], []⟩)
      (List.replicate 101 (⟨[]⟩ : Record)) (1 / 10) 20 (1 / 2)).total_records =
      100 ∧
    (analyzeMain (fun _ _ _ => ⟨[], [], [], [], []⟩)
      (List.replicate 101 (⟨[]⟩ : Record)) (1 / 10) 20 (1 / 2)).anomaly_rate =
      ((analyzeMain (fun _ _ _ => ⟨[], [], [], [], []⟩)
        (List.replicate 101 (⟨[]⟩ : Record)) (1 / 10) 20
        (1 / 2)).anomalies_detected : ℚ) /
      ((analyzeMain (fun _ _ _ => ⟨[], [], [], [], []⟩)
        (List.replicate 101 (⟨[]⟩ : Record)) (1 / 10) 20
        (1 / 2)).total_records : ℚ) := by
  have h := C8_resource_bound (fun _ _ _ => ⟨[], [], [], [], []⟩)
    (List.replicate 101 (⟨[]⟩ : Record)) (1 / 10) 20 (1 / 2) (by simp)
  exact ⟨by simp, h.1, h.2.2⟩

/-- C10: every entry of the anomalies list carries the identity fields of the
record at its reported index, with a missing id defaulting to that index as a
number and missing corpName/corpId defaulting to the string "Unknown"; a
present field is echoed through the association-list lookup unchanged, and
the raw record itself is echoed as record_data. -/
theorem C10_identity_defaults :
    ∀ (data : List Record) (dout : DetectorOutputs) (contamination : ℚ)
      (n_neighbors : ℕ) (t : ℚ) (e : AnomalyEntry),
      e ∈ (analyzeFrom data dout contamination n_neighbors t).anomalies →
      ∃ r : Record, data[e.record_index]? = some r ∧
        e.record_id = (r.fields.lookup "id").getD (.vnum e.record_index) ∧
        e.corp_name = (r.fields.lookup "corpName").getD (.vstr "Unknown") ∧
        e.corp_id = (r.fields.lookup "corpId").getD (.vstr "Unknown") ∧
        e.record_data = r := by
  intro data dout c n t e he
  have he' : e ∈ buildResults 0 data
      ((combined_scores dout).map (fun s => decide (s > t)))
      (combined_scores dout) := List.mem_mergeSort.mp he
  obtain ⟨j, r, s, h1, _, _, h4⟩ := (mem_buildResults 0 data _ _).mp he'
  subst h4
  simp only [mkEntry, Nat.zero_add]
  exact ⟨r, h1, rfl, rfl, rfl, rfl⟩

/-- Witness for C10: a concrete flagged row whose record carries an id but no
corpName/corpId. -/
theorem C10_identity_defaults_witness :
    (mkEntry 0 ⟨[("id", .vnum 7)]⟩ 3 ∈
      (analyzeFrom [⟨[("id", .vnum 7)]⟩]
        ⟨[true], [2], [false], [4], [[1, 0, 0, 0, 0, 0]]⟩ (1 / 10) 20
        (1 / 2)).anomalies) ∧
    ∃ r : Record,
      ([⟨[("id", .vnum 7)]⟩] :
        List Record)[(mkEntry 0 ⟨[("id", .vnum 7)]⟩ 3).record_index]? = some r ∧
      (mkEntry 0 ⟨[("id", .vnum 7)]⟩ 3).record_id =
        (r.fields.lookup "id").getD
          (.vnum (mkEntry 0 ⟨[("id", .vnum 7)]⟩ 3).record_index) ∧
      (mkEntry 0 ⟨[("id", .vnum 7)]⟩ 3).corp_name =
        (r.fields.lookup "corpName").getD (.vstr "Unknown") ∧
      (mkEntry 0 ⟨[("id", .vnum 7)]⟩ 3).corp_id =
        (r.fields.lookup "corpId").getD (.vstr "Unknown") ∧
      (mkEntry 0 ⟨[("id", .vnum 7)]⟩ 3).record_data = r :=
  ⟨by with_unfolding_all decide,
   C10_identity_defaults [⟨[("id", .vnum 7)]⟩]
     ⟨[true], [2], [false], [4], [[1, 0, 0, 0, 0, 0]]⟩ (1 / 10) 20 (1 / 2)
     (mkEntry 0 ⟨[("id", .vnum 7)]⟩ 3) (by with_unfolding_all decide)⟩

end MLService
